import Mathlib

/-!
# DSP LLE host bridge

A shallow embedding of `Source/Core/Core/HW/DSPLLE/DSPHost.cpp` (namespace
`DSP::Host`): the two DMA entry points and the code-load pipeline.

Conventions of the embedding.

* `u8`, `u16`, `u32` and `size_t` values are natural numbers; the bridge does
  no arithmetic on them apart from the mask `addr & 0x1f`.
* A `void` function that mutates the emulated machine is a function from the
  machine state to the new machine state. A function that can stop the
  emulator returns in `Except Fault`.
* The routines the bridge calls but which live in other translation units
  (`Memory::CopyFromEmuSwapped`, `Common::HashEctor`, `Symbols::AutoDisassembly`,
  `DSPCore::ClearIRAM`, ...) are fields of a `Collaborators` record, over which
  the general theorems are universally quantified. They are taken to return:
  `.ok` means that the bridge itself raised no fault. An instance modelled
  from the spec serves to evaluate the bridge on concrete inputs.
* Every call the bridge makes that has an effect outside the value it returns
  is appended, in program order, to the `events` field of the machine state.
-/

namespace DSP

/-! ## Data model -/

/-- A fatal stop of the emulator, carrying the log category and the diagnostic text. -/
inductive Fault where
  | assertion (log_type : String) (msg : String)
  deriving DecidableEq, Repr

/-- A host pointer `const u8*`: `none` is `nullptr`, `some bs` points at the bytes `bs`. -/
abbrev HostPtr := Option (List Nat)

/-- Modelled from the spec: the data held by `SDSP` (declared in Core/DSP/DSPCore.h,
which is not part of this source tree). The spec's DSPState "holds the last-loaded
microcode's content hash, a reference to the Analyzer, and the buffer being analyzed"; `Imem` is the instruction memory and `Ana` the
annotations of the analyzer, both left abstract. -/
structure SDSP (Imem Ana : Type) where
  iram_crc : Nat
  imem : Imem
  analyzer : Ana
  deriving DecidableEq, Repr

/-- Modelled from the spec: `DSPCore` (declared in Core/DSP/DSPCore.h, which is not part of
this source tree), the owner of one `SDSP`. -/
structure DSPCore (Imem Ana : Type) where
  m_dsp : SDSP Imem Ana
  deriving DecidableEq, Repr

/-- The accessor `DSPCore::DSPState()`. -/
def DSPCore.DSPState {Imem Ana : Type} (dsp : DSPCore Imem Ana) : SDSP Imem Ana :=
  dsp.m_dsp

/-- The setter `SDSP::SetIRAMCRC`. -/
def SDSP.SetIRAMCRC {Imem Ana : Type} (state : SDSP Imem Ana) (crc : Nat) : SDSP Imem Ana :=
  { state with iram_crc := crc }

/-- The configuration options the bridge reads through `Config::Get` and `SConfig`. -/
structure Settings where
  MAIN_DSP_THREAD : Bool
  MAIN_DUMP_UCODE : Bool
  bWii : Bool
  deriving DecidableEq, Repr

/-- One effect of the bridge on its surroundings, recorded in program order. -/
inductive HostEvent where
  | hashEctor (ptr : HostPtr) (size : Nat)
  | setIRAMCRC (crc : Nat)
  | dumpDSPCode (ptr : HostPtr) (size : Nat) (crc : Nat)
  | noticeLog (log_type : String) (msg : String)
  | symbolsClear
  | autoDisassembly (start_addr : Nat) (end_addr : Nat)
  | refreshDSPDebuggerWindow
  | clearIRAM
  | analyze
  deriving DecidableEq, Repr

/-- The emulated machine as seen from the bridge: the DSP core handed to `CodeLoaded`, the
process-wide symbol table, the shared memory space, the durable storage, the configuration
and the record of effects. -/
structure Machine (Mem Imem Ana Sym Files : Type) where
  dsp : DSPCore Imem Ana
  symbols : Sym
  memory : Mem
  files : Files
  config : Settings
  events : List HostEvent
  deriving DecidableEq

/-- The routines of other translation units that the bridge calls. None of them is
defined in this file of the repository; each is a parameter. `Symbols_Clear` is the table
`Symbols::Clear()` leaves behind, `DumpDSPCode` returns whether the write succeeded together with the new storage. -/
structure Collaborators (Mem Buf Imem Ana Sym Files : Type) where
  CopyFromEmuSwapped : Mem → Buf → Nat → Nat → Buf
  CopyToEmuSwapped : Mem → Nat → Buf → Nat → Mem
  GetPointer : Mem → Nat → HostPtr
  HashEctor : HostPtr → Nat → Nat
  DumpDSPCode : HostPtr → Nat → Nat → Files → Bool × Files
  Symbols_Clear : Sym
  AutoDisassembly : SDSP Imem Ana → Nat → Nat → Sym → Sym
  ClearIRAM : Imem → Imem
  Analyze : SDSP Imem Ana → Ana

/-! ## Formatting and assertions -/

/-- The format specifier `:08x`: lower-case hexadecimal, zero padded to eight digits. -/
def hex08 (n : Nat) : String :=
  let ds := Nat.toDigits 16 n
  String.mk (List.replicate (8 - ds.length) '0' ++ ds)

/-- Modelled from the spec: the macro `ASSERT_MSG` of Common/Assert.h (not part of this source
tree). The spec calls a violated assertion "fatal-by-design — abort immediately with a diagnostic
identifying the offending address/value". -/
def ASSERT_MSG (log_type : String) (cond : Bool) (msg : String) : Except Fault Unit :=
  if cond then pure () else throw (Fault.assertion log_type msg)

/-- The diagnostic of the alignment assertion in `DMAToDSP` and `DMAFromDSP`. -/
def dmaAlignmentMessage (addr : Nat) : String :=
  "DSP DMA addr must be 32-byte aligned (was " ++ hex08 addr ++ ")"

namespace Host

variable {Mem Buf Imem Ana Sym Files : Type}

/-! ## DMA -/

/-- The function `DMAToDSP(u16* dst, u32 addr, u32 size)`; returns the new content of `dst`. -/
def DMAToDSP (env : Collaborators Mem Buf Imem Ana Sym Files)
    (system : Machine Mem Imem Ana Sym Files) (dst : Buf) (addr size : Nat) :
    Except Fault Buf := do
  ASSERT_MSG "DSPLLE" ((addr &&& 0x1f) == 0) (dmaAlignmentMessage addr)
  let memory := system.memory
  pure (env.CopyFromEmuSwapped memory dst addr size)

/-- The function `DMAFromDSP(const u16* src, u32 addr, u32 size)`. -/
def DMAFromDSP (env : Collaborators Mem Buf Imem Ana Sym Files)
    (system : Machine Mem Imem Ana Sym Files) (src : Buf) (addr size : Nat) :
    Except Fault (Machine Mem Imem Ana Sym Files) := do
  ASSERT_MSG "DSPLLE" ((addr &&& 0x1f) == 0) (dmaAlignmentMessage addr)
  let memory := system.memory
  pure { system with memory := env.CopyToEmuSwapped memory addr src size }

/-! ## Configuration queries -/

/-- The function `OnThread()`. -/
def OnThread (system : Machine Mem Imem Ana Sym Files) : Bool :=
  system.config.MAIN_DSP_THREAD

/-- The function `IsWiiHost()`. -/
def IsWiiHost (system : Machine Mem Imem Ana Sym Files) : Bool :=
  system.config.bWii

/-! ## The steps of the code-load pipeline -/

/-- Append one effect to the record. -/
def emit (e : HostEvent) (system : Machine Mem Imem Ana Sym Files) :
    Machine Mem Imem Ana Sym Files :=
  { system with events := system.events ++ [e] }

/-- The statement `const u32 iram_crc = Common::HashEctor(ptr, size);`. -/
def HashEctor (env : Collaborators Mem Buf Imem Ana Sym Files) (ptr : HostPtr) (size : Nat)
    (system : Machine Mem Imem Ana Sym Files) : Nat × Machine Mem Imem Ana Sym Files :=
  (env.HashEctor ptr size, emit (.hashEctor ptr size) system)

/-- The statement `state.SetIRAMCRC(iram_crc);` with `state` bound to `dsp.DSPState()`. -/
def SetIRAMCRC (iram_crc : Nat) (system : Machine Mem Imem Ana Sym Files) :
    Machine Mem Imem Ana Sym Files :=
  emit (.setIRAMCRC iram_crc)
    { system with dsp := { m_dsp := system.dsp.DSPState.SetIRAMCRC iram_crc } }

/-- The call `DSP::DumpDSPCode(ptr, size, iram_crc);`, whose outcome the bridge discards. -/
def DumpDSPCode (env : Collaborators Mem Buf Imem Ana Sym Files) (ptr : HostPtr)
    (size iram_crc : Nat) (system : Machine Mem Imem Ana Sym Files) :
    Machine Mem Imem Ana Sym Files :=
  emit (.dumpDSPCode ptr size iram_crc)
    { system with files := (env.DumpDSPCode ptr size iram_crc system.files).2 }

/-- The macro call `NOTICE_LOG_FMT(DSPLLE, ...)`. -/
def NOTICE_LOG_FMT (log_type msg : String) (system : Machine Mem Imem Ana Sym Files) :
    Machine Mem Imem Ana Sym Files :=
  emit (.noticeLog log_type msg) system

/-- The call `Symbols::Clear();`. -/
def Symbols.Clear (env : Collaborators Mem Buf Imem Ana Sym Files)
    (system : Machine Mem Imem Ana Sym Files) : Machine Mem Imem Ana Sym Files :=
  emit .symbolsClear { system with symbols := env.Symbols_Clear }

/-- The call `Symbols::AutoDisassembly(state, start_addr, end_addr);` with `state` bound to
`dsp.DSPState()`. -/
def Symbols.AutoDisassembly (env : Collaborators Mem Buf Imem Ana Sym Files)
    (start_addr end_addr : Nat) (system : Machine Mem Imem Ana Sym Files) :
    Machine Mem Imem Ana Sym Files :=
  emit (.autoDisassembly start_addr end_addr)
    { system with
      symbols := env.AutoDisassembly system.dsp.DSPState start_addr end_addr system.symbols }

/-- The function `UpdateDebugger()`, which forwards to `Host_RefreshDSPDebuggerWindow()`. -/
def UpdateDebugger (system : Machine Mem Imem Ana Sym Files) :
    Machine Mem Imem Ana Sym Files :=
  emit .refreshDSPDebuggerWindow system

/-- The call `dsp.ClearIRAM();`. -/
def ClearIRAM (env : Collaborators Mem Buf Imem Ana Sym Files)
    (system : Machine Mem Imem Ana Sym Files) : Machine Mem Imem Ana Sym Files :=
  emit .clearIRAM
    { system with
      dsp := { m_dsp := { system.dsp.m_dsp with imem := env.ClearIRAM system.dsp.m_dsp.imem } } }

/-- The call `state.GetAnalyzer().Analyze(state);` with `state` bound to `dsp.DSPState()`. -/
def Analyze (env : Collaborators Mem Buf Imem Ana Sym Files)
    (system : Machine Mem Imem Ana Sym Files) : Machine Mem Imem Ana Sym Files :=
  emit .analyze
    { system with
      dsp := { m_dsp := { system.dsp.m_dsp with analyzer := env.Analyze system.dsp.DSPState } } }

/-! ## The code-load pipeline -/

/-- The function `CodeLoaded(DSPCore& dsp, const u8* ptr, size_t size)`; the core `dsp` is
the field `dsp` of the machine. -/
def CodeLoaded (env : Collaborators Mem Buf Imem Ana Sym Files)
    (system : Machine Mem Imem Ana Sym Files) (ptr : HostPtr) (size : Nat) :
    Except Fault (Machine Mem Imem Ana Sym Files) := do
  let (iram_crc, system) := HashEctor env ptr size system
  let system := SetIRAMCRC iram_crc system
  let system :=
    if system.config.MAIN_DUMP_UCODE then DumpDSPCode env ptr size iram_crc system else system
  let system := NOTICE_LOG_FMT "DSPLLE" ("g_dsp.iram_crc: " ++ hex08 iram_crc) system
  let system := Symbols.Clear env system
  let system := Symbols.AutoDisassembly env 0x0 0x1000 system
  let system := Symbols.AutoDisassembly env 0x8000 0x9000 system
  let system := UpdateDebugger system
  let system := ClearIRAM env system
  let system := Analyze env system
  pure system

/-- The function `CodeLoaded(DSPCore& dsp, u32 addr, size_t size)`. -/
def CodeLoadedAddr (env : Collaborators Mem Buf Imem Ana Sym Files)
    (system : Machine Mem Imem Ana Sym Files) (addr size : Nat) :
    Except Fault (Machine Mem Imem Ana Sym Files) :=
  let memory := system.memory
  CodeLoaded env system (env.GetPointer memory addr) size

/-- The two-window disassembly the pipeline performs over a DSP state: the table
`Symbols::Clear()` leaves, extended by `AutoDisassembly(state, 0x0, 0x1000)` and then by
`AutoDisassembly(state, 0x8000, 0x9000)`. -/
def disassembledSymbols (env : Collaborators Mem Buf Imem Ana Sym Files)
    (state : SDSP Imem Ana) : Sym :=
  env.AutoDisassembly state 0x8000 0x9000 (env.AutoDisassembly state 0x0 0x1000 env.Symbols_Clear)

/-- Whether an effect is the persistence call. -/
def isDumpDSPCode : HostEvent → Bool
  | .dumpDSPCode _ _ _ => true
  | _ => false

/-! ## An instance of the collaborators, modelled from the spec

Byte-addressed shared memory, a byte view of the DSP-side buffer, a sparse instruction
memory of (address, opcode) pairs, a symbol table of (address, opcode) pairs and a storage
that lists the dumped images. Each routine follows the words of the spec for the routine
it stands for. Used to evaluate the bridge on concrete inputs. -/

/-- Modelled from the spec: `Memory::CopyFromEmuSwapped` (Core/HW/Memmap.h is not part of this
source tree): "copies `byteSize` bytes from the shared memory space at `sourceAddress` into
`destination`, performing the platform's endianness swap during the copy". Byte `i` of the
source lands in byte `i xor 1` of the destination. -/
def sampleCopyFromEmuSwapped (memory : List Nat) (dst : List Nat) (addr size : Nat) : List Nat :=
  (List.range size).foldl (fun buf i => buf.set (i ^^^ 1) (memory.getD (addr + i) 0)) dst

/-- Modelled from the spec: `Memory::CopyToEmuSwapped` (Core/HW/Memmap.h is not part of this
source tree), the "symmetric copy in the other direction, same swap behavior". -/
def sampleCopyToEmuSwapped (memory : List Nat) (addr : Nat) (src : List Nat) (size : Nat) :
    List Nat :=
  (List.range size).foldl (fun mem i => mem.set (addr + i) (src.getD (i ^^^ 1) 0)) memory

/-- Modelled from the spec: `Memory::GetPointer` (Core/HW/Memmap.h is not part of this source
tree), the spec's `resolveAddressToPointer(address) -> pointer`: an address inside the memory
resolves to the bytes from there on, any other address to no pointer. -/
def sampleGetPointer (memory : List Nat) (addr : Nat) : HostPtr :=
  if addr < memory.length then some (memory.drop addr) else none

/-- Modelled from the spec: `Common::HashEctor` (Common/Hash.cpp is not part of this source
tree): "a content hash over `imageBytes[0, size)`", here a multiplicative hash folded over
the first `size` bytes behind the pointer, kept within 32 bits. The spec gives no hash of a
null image; behind `nullptr` the fold runs over no byte at all, and no statement of this
file depends on the value that gives. -/
def sampleHashEctor (ptr : HostPtr) (size : Nat) : Nat :=
  ((ptr.getD []).take size).foldl (fun h b => (h * 33 + b) % 2 ^ 32) 5381

/-- Modelled from the spec: `DSP::DumpDSPCode` (Core/DSP/DSPCodeUtil.cpp is not part of this
source tree): "write the raw image plus its hash to durable storage"; this one succeeds. -/
def sampleDumpDSPCode (ptr : HostPtr) (size crc : Nat) (files : List (Nat × List Nat)) :
    Bool × List (Nat × List Nat) :=
  (true, files ++ [(crc, (ptr.getD []).take size)])

/-- Modelled from the spec: `Symbols::AutoDisassembly` (Core/HW/DSPLLE/DSPSymbols.cpp is not
part of this source tree): "run static disassembly over" an instruction-memory window,
"registering discovered symbols"; unmapped addresses give "no symbols there". One symbol is
registered for each word the instruction memory of the state holds inside the window. -/
def sampleAutoDisassembly (state : SDSP (List (Nat × Nat)) (List Nat))
    (start_addr end_addr : Nat) (table : List (Nat × Nat)) : List (Nat × Nat) :=
  table ++ state.imem.filter (fun p => decide (start_addr ≤ p.1) && decide (p.1 < end_addr))

/-- Modelled from the spec: `DSPCore::ClearIRAM` (Core/DSP/DSPCore.cpp is not part of this
source tree): step 7 is to "clear the DSP's instruction-memory buffer (IRAM) in the owning
DSPCore", after which "IRAM in `core` is empty (cleared)"; the data model calls the whole
instruction-memory buffer of the core "IRAM". No word is left. -/
def sampleClearIRAM (_imem : List (Nat × Nat)) : List (Nat × Nat) :=
  []

/-- Modelled from the spec: `Analyzer::Analyze` (Core/DSP/DSPAnalyzer.cpp is not part of this
source tree), the "stateful annotator over instruction memory" that "holds no state that
survives across loads": the annotated addresses are those of the words present. -/
def sampleAnalyze (state : SDSP (List (Nat × Nat)) (List Nat)) : List Nat :=
  state.imem.map Prod.fst

/-- Modelled from the spec: the collaborators of the bridge, none of which is part of this
source tree, put together from the definitions above; `Symbols::Clear`
(Core/HW/DSPLLE/DSPSymbols.cpp) leaves the empty table: "Clear the global Symbol Table". -/
def sampleEnv :
    Collaborators (List Nat) (List Nat) (List (Nat × Nat)) (List Nat) (List (Nat × Nat))
      (List (Nat × List Nat)) where
  CopyFromEmuSwapped := sampleCopyFromEmuSwapped
  CopyToEmuSwapped := sampleCopyToEmuSwapped
  GetPointer := sampleGetPointer
  HashEctor := sampleHashEctor
  DumpDSPCode := sampleDumpDSPCode
  Symbols_Clear := []
  AutoDisassembly := sampleAutoDisassembly
  ClearIRAM := sampleClearIRAM
  Analyze := sampleAnalyze

/-- A sample machine: 64 bytes of shared memory holding 0, 1, ..., 63, two words of
instruction memory, one stale symbol and a stale hash. -/
def sampleMachine :
    Machine (List Nat) (List (Nat × Nat)) (List Nat) (List (Nat × Nat)) (List (Nat × List Nat)) where
  dsp := { m_dsp := { iram_crc := 0xdeadbeef, imem := [(0x10, 7), (0x8000, 2)], analyzer := [] } }
  symbols := [(0x999, 1)]
  memory := List.range 64
  files := []
  config := { MAIN_DSP_THREAD := false, MAIN_DUMP_UCODE := false, bWii := false }
  events := []

/-- The sample machine with a different instruction memory. -/
def sampleMachineOtherImem :
    Machine (List Nat) (List (Nat × Nat)) (List Nat) (List (Nat × Nat)) (List (Nat × List Nat)) :=
  { sampleMachine with dsp := { m_dsp := { sampleMachine.dsp.m_dsp with imem := [(0x20, 9)] } } }

/-! ## Shared lemmas -/

/-- The mask `addr & 0x1f` is the remainder of `addr` modulo 32. -/
theorem and_0x1f_eq_mod (addr : Nat) : addr &&& 0x1f = addr % 32 :=
  Nat.and_pow_two_sub_one_eq_mod addr 5

/-- The pipeline never stops the emulator: it returns the machine obtained by running its
steps one after the other. -/
theorem CodeLoaded_eq (env : Collaborators Mem Buf Imem Ana Sym Files)
    (system : Machine Mem Imem Ana Sym Files) (ptr : HostPtr) (size : Nat) :
    CodeLoaded env system ptr size =
      .ok (Analyze env (ClearIRAM env (UpdateDebugger
        (Symbols.AutoDisassembly env 0x8000 0x9000 (Symbols.AutoDisassembly env 0x0 0x1000
          (Symbols.Clear env
            (NOTICE_LOG_FMT "DSPLLE" ("g_dsp.iram_crc: " ++ hex08 (env.HashEctor ptr size))
              (if system.config.MAIN_DUMP_UCODE then
                DumpDSPCode env ptr size (env.HashEctor ptr size)
                  (SetIRAMCRC (env.HashEctor ptr size) (emit (.hashEctor ptr size) system))
              else SetIRAMCRC (env.HashEctor ptr size) (emit (.hashEctor ptr size) system))))))))) :=
  rfl

/-- The disassembly steps read the DSP state and write the symbol table only. -/
theorem CodeLoaded_fields (env : Collaborators Mem Buf Imem Ana Sym Files)
    (system : Machine Mem Imem Ana Sym Files) (ptr : HostPtr) (size : Nat) :
    ∃ result, CodeLoaded env system ptr size = .ok result ∧
      result.dsp.m_dsp.iram_crc = env.HashEctor ptr size ∧
      result.dsp.m_dsp.imem = env.ClearIRAM system.dsp.m_dsp.imem ∧
      result.dsp.m_dsp.analyzer =
        env.Analyze
          { iram_crc := env.HashEctor ptr size
            imem := env.ClearIRAM system.dsp.m_dsp.imem
            analyzer := system.dsp.m_dsp.analyzer } ∧
      result.symbols =
        disassembledSymbols env
          { iram_crc := env.HashEctor ptr size
            imem := system.dsp.m_dsp.imem
            analyzer := system.dsp.m_dsp.analyzer } ∧
      result.memory = system.memory ∧
      result.config = system.config := by
  refine ⟨_, CodeLoaded_eq env system ptr size, ?_⟩
  cases h : system.config.MAIN_DUMP_UCODE <;>
    simp [h, Analyze, ClearIRAM, UpdateDebugger, Symbols.AutoDisassembly, Symbols.Clear,
      NOTICE_LOG_FMT, DumpDSPCode, SetIRAMCRC, emit, DSPCore.DSPState, SDSP.SetIRAMCRC,
      disassembledSymbols]

/-! ## DMA: claims C1 and C2 -/

/-- C1: for every address that is not a multiple of 32 and every size, both `DMAToDSP` and
`DMAFromDSP` stop with the alignment assertion instead of returning normally. -/
theorem dma_misaligned_address_is_fatal (env : Collaborators Mem Buf Imem Ana Sym Files)
    (system : Machine Mem Imem Ana Sym Files) (dst src : Buf) (addr size : Nat)
    (h : addr % 32 ≠ 0) :
    DMAToDSP env system dst addr size
        = .error (.assertion "DSPLLE" (dmaAlignmentMessage addr)) ∧
      DMAFromDSP env system src addr size
        = .error (.assertion "DSPLLE" (dmaAlignmentMessage addr)) := by
  have hmask : ((addr &&& 0x1f) == 0) = false := by
    rw [and_0x1f_eq_mod]
    exact beq_false_of_ne h
  constructor
  · simp only [DMAToDSP, ASSERT_MSG, hmask]
    rfl
  · simp only [DMAFromDSP, ASSERT_MSG, hmask]
    rfl

/-- Witness of C1: address 0x21 fails in both directions, here with size 5. -/
theorem dma_misaligned_address_is_fatal_witness :
    0x21 % 32 ≠ 0 ∧
      DMAToDSP sampleEnv sampleMachine [0, 0, 0, 0, 0, 0, 0, 0] 0x21 5
        = .error (.assertion "DSPLLE" (dmaAlignmentMessage 0x21)) ∧
      DMAFromDSP sampleEnv sampleMachine [1, 2, 3, 4, 5, 6, 7, 8] 0x21 5
        = .error (.assertion "DSPLLE" (dmaAlignmentMessage 0x21)) :=
  ⟨by decide,
    dma_misaligned_address_is_fatal sampleEnv sampleMachine [0, 0, 0, 0, 0, 0, 0, 0]
      [1, 2, 3, 4, 5, 6, 7, 8] 0x21 5 (by decide)⟩

/-- C2: for every address that is a multiple of 32 and every size, divisible by 32 or not,
`DMAToDSP` and `DMAFromDSP` return normally and their effect is that of the swapped copy of
the shared memory space, called with the same buffer, the same address and the size as
given. -/
theorem dma_aligned_address_copies_given_size (env : Collaborators Mem Buf Imem Ana Sym Files)
    (system : Machine Mem Imem Ana Sym Files) (dst src : Buf) (addr size : Nat)
    (h : addr % 32 = 0) :
    DMAToDSP env system dst addr size
        = .ok (env.CopyFromEmuSwapped system.memory dst addr size) ∧
      DMAFromDSP env system src addr size
        = .ok { system with memory := env.CopyToEmuSwapped system.memory addr src size } := by
  have hmask : ((addr &&& 0x1f) == 0) = true := by
    rw [and_0x1f_eq_mod, h]
    rfl
  constructor
  · simp only [DMAToDSP, ASSERT_MSG, hmask]
    rfl
  · simp only [DMAFromDSP, ASSERT_MSG, hmask]
    rfl

/-- Witness of C2: at address 0x20 with size 5 the sample copy moves the five bytes 32..36
of the shared memory, swapped within each 16-bit word, and leaves the rest of the buffer. -/
theorem dma_aligned_address_copies_given_size_witness :
    0x20 % 32 = 0 ∧
      DMAToDSP sampleEnv sampleMachine [0, 0, 0, 0, 0, 0, 0, 0] 0x20 5
        = .ok [33, 32, 35, 34, 0, 36, 0, 0] ∧
      (DMAFromDSP sampleEnv sampleMachine [1, 2, 3, 4, 5, 6, 7, 8] 0x20 5).toOption.map
          (fun m => (m.memory.drop 0x20).take 8)
        = some [2, 1, 4, 3, 6, 37, 38, 39] :=
  have key := dma_aligned_address_copies_given_size sampleEnv sampleMachine
    [0, 0, 0, 0, 0, 0, 0, 0] [1, 2, 3, 4, 5, 6, 7, 8] 0x20 5 (by decide)
  ⟨by decide, key.1.trans (congrArg Except.ok (by decide)), by rw [key.2]; decide⟩

/-! ## Code load: claims C3 to C10 -/

/-- C3: for every machine state (whatever hash it held and whatever the persistence option
is), every image and every size, `CodeLoaded` returns and the hash then stored in the DSP
state is the hash of the image over the given size. -/
theorem codeLoaded_stores_hash_of_image (env : Collaborators Mem Buf Imem Ana Sym Files)
    (system : Machine Mem Imem Ana Sym Files) (ptr : HostPtr) (size : Nat) :
    ∃ result, CodeLoaded env system ptr size = .ok result ∧
      result.dsp.DSPState.iram_crc = env.HashEctor ptr size := by
  obtain ⟨result, hres, hcrc, -⟩ := CodeLoaded_fields env system ptr size
  exact ⟨result, hres, hcrc⟩

/-- Counterexample to C4: with the same image of sixteen zero bytes, two machines that differ
only in their instruction memory end with different symbol tables, each listing the words of
that instruction memory; and on one machine two different images give the same table. -/
theorem symbols_follow_instruction_memory_not_image :
    (∃ a b,
      CodeLoaded sampleEnv sampleMachine (some (List.replicate 16 0)) 16 = .ok a ∧
      CodeLoaded sampleEnv sampleMachineOtherImem (some (List.replicate 16 0)) 16 = .ok b ∧
      a.symbols = [(0x10, 7), (0x8000, 2)] ∧ b.symbols = [(0x20, 9)]) ∧
    (∃ c,
      CodeLoaded sampleEnv sampleMachine (some [1, 2, 3, 4]) 4 = .ok c ∧
      c.symbols = [(0x10, 7), (0x8000, 2)]) :=
  ⟨⟨_, _, rfl, rfl, by decide, by decide⟩, ⟨_, rfl, by decide⟩⟩

/-- C4, amended: after `CodeLoaded` returns, the symbol table is the cleared table extended
by the disassembly of the windows [0x0000,0x1000) and [0x8000,0x9000) of the DSP state as
it stood at the call, with the new hash stored in it; whatever table `old_symbols` was
there before the call, none of it remains. -/
theorem codeLoaded_symbols_replaced_from_dsp_state
    (env : Collaborators Mem Buf Imem Ana Sym Files)
    (system : Machine Mem Imem Ana Sym Files) (old_symbols : Sym) (ptr : HostPtr) (size : Nat) :
    ∃ result, CodeLoaded env { system with symbols := old_symbols } ptr size = .ok result ∧
      result.symbols =
        disassembledSymbols env (system.dsp.DSPState.SetIRAMCRC (env.HashEctor ptr size)) := by
  obtain ⟨result, hres, -, -, -, hsym, -⟩ :=
    CodeLoaded_fields env { system with symbols := old_symbols } ptr size
  exact ⟨result, hres, hsym⟩

/-- C6: for every machine state, image and size, two runs of `CodeLoaded` that differ in
the persist option (`flag`, `flag'`) and in the persistence routine (`dump`, `dump'`,
succeeding or failing) both return, and end with the same DSP core (hash, instruction
memory, analyzer), the same symbol table, the same shared memory and the same effects apart
from the persistence call; the storage is the only thing the persistence call touches. -/
theorem codeLoaded_independent_of_persistence
    (env : Collaborators Mem Buf Imem Ana Sym Files)
    (dump dump' : HostPtr → Nat → Nat → Files → Bool × Files)
    (system : Machine Mem Imem Ana Sym Files) (flag flag' : Bool) (ptr : HostPtr) (size : Nat) :
    ∃ a b,
      CodeLoaded { env with DumpDSPCode := dump }
          { system with config := { system.config with MAIN_DUMP_UCODE := flag } } ptr size
        = .ok a ∧
      CodeLoaded { env with DumpDSPCode := dump' }
          { system with config := { system.config with MAIN_DUMP_UCODE := flag' } } ptr size
        = .ok b ∧
      a.dsp = b.dsp ∧ a.symbols = b.symbols ∧ a.memory = b.memory ∧
      a.events.filter (fun e => !isDumpDSPCode e) = b.events.filter (fun e => !isDumpDSPCode e) ∧
      a.files
        = (if flag then (dump ptr size (env.HashEctor ptr size) system.files).2
            else system.files) ∧
      b.files
        = (if flag' then (dump' ptr size (env.HashEctor ptr size) system.files).2
            else system.files) := by
  refine ⟨_, _, CodeLoaded_eq _ _ ptr size, CodeLoaded_eq _ _ ptr size, ?_⟩
  cases flag <;> cases flag' <;>
    simp [Analyze, ClearIRAM, UpdateDebugger, Symbols.AutoDisassembly, Symbols.Clear,
      NOTICE_LOG_FMT, DumpDSPCode, SetIRAMCRC, emit, DSPCore.DSPState, SDSP.SetIRAMCRC,
      List.filter_append, isDumpDSPCode]

/-- C7: the address form of `CodeLoaded` is the pointer form applied to the pointer the
shared memory space resolves for the address: same outcome, same final machine, same
record of effects. -/
theorem codeLoaded_entry_forms_agree (env : Collaborators Mem Buf Imem Ana Sym Files)
    (system : Machine Mem Imem Ana Sym Files) (addr size : Nat) :
    CodeLoadedAddr env system addr size
      = CodeLoaded env system (env.GetPointer system.memory addr) size :=
  rfl

/-- Counterexample to C8: on the sample machine, whatever the hash routine `hash` is, a
null image of size 4 does not make `CodeLoaded` stop with a diagnostic, and the first
effect on record is the call of the hash routine with the null pointer; the address 0x1000,
which resolves to no pointer, is passed on to the pointer form as that null pointer. -/
theorem null_image_reaches_hash_call :
    sampleEnv.GetPointer sampleMachine.memory 0x1000 = none ∧
      ∀ hash : HostPtr → Nat → Nat,
        CodeLoadedAddr { sampleEnv with HashEctor := hash } sampleMachine 0x1000 4
          = CodeLoaded { sampleEnv with HashEctor := hash } sampleMachine none 4 ∧
        (∀ fault,
          CodeLoaded { sampleEnv with HashEctor := hash } sampleMachine none 4 ≠ .error fault) ∧
        ∃ result,
          CodeLoaded { sampleEnv with HashEctor := hash } sampleMachine none 4 = .ok result ∧
          result.events.head? = some (.hashEctor none 4) :=
  ⟨by decide, fun hash =>
    ⟨rfl,
      (fun fault hfault => by
        rw [CodeLoaded_eq] at hfault
        cases hfault),
      ⟨_, rfl, rfl⟩⟩⟩

/-- C8, amended: `CodeLoaded` has no guard on the image pointer. Called in the address form
with an address that resolves to no pointer, it passes the null pointer on to the pointer
form; the pointer form, called with a null image, raises no fault and no diagnostic of its
own, and the first thing it does is call the hash routine with the null pointer and the
size. Nothing is said of the hash, the symbol table or the instruction memory afterwards:
that is decided by the hash routine reading through the pointer. -/
theorem codeLoaded_null_image_unchecked (env : Collaborators Mem Buf Imem Ana Sym Files)
    (system : Machine Mem Imem Ana Sym Files) (addr size : Nat)
    (h : env.GetPointer system.memory addr = none) :
    CodeLoadedAddr env system addr size = CodeLoaded env system none size ∧
      (∀ fault, CodeLoaded env system none size ≠ .error fault) ∧
      ∃ result,
        CodeLoaded env system none size = .ok result ∧
        (result.events.drop system.events.length).head? = some (.hashEctor none size) := by
  refine ⟨?_, ?_, _, CodeLoaded_eq env system none size, ?_⟩
  · show CodeLoaded env system (env.GetPointer system.memory addr) size = _
    rw [h]
  · intro fault hfault
    rw [CodeLoaded_eq] at hfault
    cases hfault
  · cases hflag : system.config.MAIN_DUMP_UCODE <;>
      simp [hflag, Analyze, ClearIRAM, UpdateDebugger, Symbols.AutoDisassembly, Symbols.Clear,
        NOTICE_LOG_FMT, DumpDSPCode, SetIRAMCRC, emit, List.append_assoc]

/-- Witness of the amended C8: address 0x1000 lies outside the 64 bytes of the sample
memory and resolves to no pointer. -/
theorem codeLoaded_null_image_unchecked_witness :
    sampleEnv.GetPointer sampleMachine.memory 0x1000 = none ∧
      CodeLoadedAddr sampleEnv sampleMachine 0x1000 4 = CodeLoaded sampleEnv sampleMachine none 4 ∧
      (∀ fault, CodeLoaded sampleEnv sampleMachine none 4 ≠ .error fault) ∧
      ∃ result,
        CodeLoaded sampleEnv sampleMachine none 4 = .ok result ∧
        (result.events.drop sampleMachine.events.length).head? = some (.hashEctor none 4) :=
  ⟨by decide, codeLoaded_null_image_unchecked sampleEnv sampleMachine 0x1000 4 (by decide)⟩

/-- C9: after `CodeLoaded` returns, for every initial machine state, the instruction memory
of the core is the result of `ClearIRAM` and the analyzer holds the analysis of the state
with the new hash stored and the instruction memory already cleared. -/
theorem codeLoaded_clears_iram_then_analyzes (env : Collaborators Mem Buf Imem Ana Sym Files)
    (system : Machine Mem Imem Ana Sym Files) (ptr : HostPtr) (size : Nat) :
    ∃ result, CodeLoaded env system ptr size = .ok result ∧
      result.dsp.DSPState.imem = env.ClearIRAM system.dsp.DSPState.imem ∧
      result.dsp.DSPState.analyzer =
        env.Analyze
          { iram_crc := env.HashEctor ptr size
            imem := env.ClearIRAM system.dsp.DSPState.imem
            analyzer := system.dsp.DSPState.analyzer } := by
  obtain ⟨result, hres, -, himem, hana, -⟩ := CodeLoaded_fields env system ptr size
  exact ⟨result, hres, himem, hana⟩

/-- C10: for every input, one `CodeLoaded` invocation adds to the record of effects, in
this order: hash computed, hash stored, persistence call (only when the option is on), log
line with the hash, symbol table cleared, disassembly of [0x0000,0x1000), disassembly of
[0x8000,0x9000), debugger notified, instruction memory cleared, analyzer run; and the
symbol table it leaves is the two-window disassembly of the state whose instruction memory
is the one from before the clear. -/
theorem codeLoaded_effect_order (env : Collaborators Mem Buf Imem Ana Sym Files)
    (system : Machine Mem Imem Ana Sym Files) (ptr : HostPtr) (size : Nat) :
    ∃ result, CodeLoaded env system ptr size = .ok result ∧
      result.events =
        system.events ++
          ([HostEvent.hashEctor ptr size, .setIRAMCRC (env.HashEctor ptr size)] ++
            (if system.config.MAIN_DUMP_UCODE then
              [HostEvent.dumpDSPCode ptr size (env.HashEctor ptr size)] else []) ++
            [.noticeLog "DSPLLE" ("g_dsp.iram_crc: " ++ hex08 (env.HashEctor ptr size)),
              .symbolsClear, .autoDisassembly 0x0 0x1000, .autoDisassembly 0x8000 0x9000,
              .refreshDSPDebuggerWindow, .clearIRAM, .analyze]) ∧
      result.symbols =
        disassembledSymbols env
          { iram_crc := env.HashEctor ptr size
            imem := system.dsp.DSPState.imem
            analyzer := system.dsp.DSPState.analyzer } := by
  obtain ⟨result, hres, -, -, -, hsym, -⟩ := CodeLoaded_fields env system ptr size
  refine ⟨result, hres, ?_, hsym⟩
  rw [CodeLoaded_eq] at hres
  cases hres
  cases hflag : system.config.MAIN_DUMP_UCODE <;>
    simp [hflag, Analyze, ClearIRAM, UpdateDebugger, Symbols.AutoDisassembly, Symbols.Clear,
      NOTICE_LOG_FMT, DumpDSPCode, SetIRAMCRC, emit, List.append_assoc]

end Host

end DSP
